import Mathlib

/-!
# The C-linkage shim of `wrapper/cimgui_impl.cpp`

The file exports twelve functions with C linkage.  Each body is a single call
statement.  The wrapped rendering backend (`ImGui_ImplOpenGL3_*`) and windowing
backend (`ImGui_ImplSDL3_*`) are not part of the sources: they are taken as a
parameter `Lib σ`, where `σ` is the whole state owned by the wrapped libraries.

Every call statement a shim body executes is recorded in a trace, so that
"which function was invoked, how often and with which arguments" can be stated.
-/

namespace CimguiImpl

/-- A pointer value as the shim sees it: an address, `0` being the null pointer.
The shim never dereferences a pointer, it only passes it on. -/
abbrev Ptr := Nat

/-- The null pointer. -/
def NULL : Ptr := 0

/-- Modelled from the spec: the enum `ImGui_ImplSDL3_GamepadMode` is declared in the
wrapped library's header `backends/imgui_impl_sdl3.h`, which is not among the
sources.  The spec describes it as a mode selector, automatic detection versus a
manual list; the enumerators carry the names of the upstream header, where
automatic detection comes as first-gamepad and all-gamepads.  Every result below
is stated for an arbitrary mode, so none depends on how many enumerators there are. -/
inductive ImGui_ImplSDL3_GamepadMode where
  | AutoFirst
  | AutoAll
  | Manual
  deriving DecidableEq, Repr

/-- The wrapped libraries, as the two included headers declare them.  A function
returning `bool` gives its flag and the new library state, a `void` function gives
the new library state. -/
structure Lib (σ : Type) where
  ImGui_ImplOpenGL3_Init : Ptr → σ → Bool × σ
  ImGui_ImplOpenGL3_Shutdown : σ → σ
  ImGui_ImplOpenGL3_NewFrame : σ → σ
  ImGui_ImplOpenGL3_RenderDrawData : Ptr → σ → σ
  ImGui_ImplOpenGL3_CreateDeviceObjects : σ → Bool × σ
  ImGui_ImplOpenGL3_DestroyDeviceObjects : σ → σ
  ImGui_ImplOpenGL3_UpdateTexture : Ptr → σ → σ
  ImGui_ImplSDL3_InitForOpenGL : Ptr → Ptr → σ → Bool × σ
  ImGui_ImplSDL3_Shutdown : σ → σ
  ImGui_ImplSDL3_NewFrame : σ → σ
  ImGui_ImplSDL3_ProcessEvent : Ptr → σ → Bool × σ
  ImGui_ImplSDL3_SetGamepadMode : ImGui_ImplSDL3_GamepadMode → Ptr → Int → σ → σ

/-- A call of a function of the wrapped libraries, with its arguments. -/
inductive LibCall where
  | ImGui_ImplOpenGL3_Init (glsl_version : Ptr)
  | ImGui_ImplOpenGL3_Shutdown
  | ImGui_ImplOpenGL3_NewFrame
  | ImGui_ImplOpenGL3_RenderDrawData (draw_data : Ptr)
  | ImGui_ImplOpenGL3_CreateDeviceObjects
  | ImGui_ImplOpenGL3_DestroyDeviceObjects
  | ImGui_ImplOpenGL3_UpdateTexture (tex : Ptr)
  | ImGui_ImplSDL3_InitForOpenGL (window : Ptr) (sdl_gl_context : Ptr)
  | ImGui_ImplSDL3_Shutdown
  | ImGui_ImplSDL3_NewFrame
  | ImGui_ImplSDL3_ProcessEvent (event : Ptr)
  | ImGui_ImplSDL3_SetGamepadMode (mode : ImGui_ImplSDL3_GamepadMode)
      (manual_gamepads_array : Ptr) (manual_gamepads_count : Int)
  deriving DecidableEq, Repr

/-- One executed call statement: a call into the wrapped libraries, or the one call
in the file whose callee is a shim function. -/
inductive Event where
  | lib (c : LibCall)
  | ig_ImplSDL3_SetGamepadMode (mode : ImGui_ImplSDL3_GamepadMode)
      (manual_gamepads_array : Ptr) (manual_gamepads_count : Int)
  deriving DecidableEq, Repr

/-- Whether an event is an invocation of the library's `ImGui_ImplSDL3_SetGamepadMode`. -/
def Event.isLibSetGamepadMode : Event → Bool
  | .lib (.ImGui_ImplSDL3_SetGamepadMode _ _ _) => true
  | _ => false

/-- Everything observable: the state owned by the wrapped libraries and the calls
executed so far, oldest first.  The shim has no field of its own here because the
source declares no variable. -/
structure World (σ : Type) where
  backend : σ
  trace : List Event
  deriving DecidableEq, Repr

/-- What a library function does to its state and what it returns: `some b` for a
function returning `bool`, `none` for a `void` function. -/
def Lib.run {σ : Type} (L : Lib σ) : LibCall → σ → Option Bool × σ
  | .ImGui_ImplOpenGL3_Init glsl_version, s =>
      (some (L.ImGui_ImplOpenGL3_Init glsl_version s).1, (L.ImGui_ImplOpenGL3_Init glsl_version s).2)
  | .ImGui_ImplOpenGL3_Shutdown, s => (none, L.ImGui_ImplOpenGL3_Shutdown s)
  | .ImGui_ImplOpenGL3_NewFrame, s => (none, L.ImGui_ImplOpenGL3_NewFrame s)
  | .ImGui_ImplOpenGL3_RenderDrawData draw_data, s =>
      (none, L.ImGui_ImplOpenGL3_RenderDrawData draw_data s)
  | .ImGui_ImplOpenGL3_CreateDeviceObjects, s =>
      (some (L.ImGui_ImplOpenGL3_CreateDeviceObjects s).1, (L.ImGui_ImplOpenGL3_CreateDeviceObjects s).2)
  | .ImGui_ImplOpenGL3_DestroyDeviceObjects, s => (none, L.ImGui_ImplOpenGL3_DestroyDeviceObjects s)
  | .ImGui_ImplOpenGL3_UpdateTexture tex, s => (none, L.ImGui_ImplOpenGL3_UpdateTexture tex s)
  | .ImGui_ImplSDL3_InitForOpenGL window sdl_gl_context, s =>
      (some (L.ImGui_ImplSDL3_InitForOpenGL window sdl_gl_context s).1,
        (L.ImGui_ImplSDL3_InitForOpenGL window sdl_gl_context s).2)
  | .ImGui_ImplSDL3_Shutdown, s => (none, L.ImGui_ImplSDL3_Shutdown s)
  | .ImGui_ImplSDL3_NewFrame, s => (none, L.ImGui_ImplSDL3_NewFrame s)
  | .ImGui_ImplSDL3_ProcessEvent event, s =>
      (some (L.ImGui_ImplSDL3_ProcessEvent event s).1, (L.ImGui_ImplSDL3_ProcessEvent event s).2)
  | .ImGui_ImplSDL3_SetGamepadMode mode arr count, s =>
      (none, L.ImGui_ImplSDL3_SetGamepadMode mode arr count s)

/-- Calling a library function directly: the library runs on its state and the
call is recorded. -/
def direct {σ : Type} (L : Lib σ) (c : LibCall) (w : World σ) : Option Bool × World σ :=
  ((L.run c w.backend).1, { backend := (L.run c w.backend).2, trace := w.trace ++ [Event.lib c] })

/-- The statement `return f(args);`. -/
def returnCall {σ : Type} (L : Lib σ) (c : LibCall) (w : World σ) : Option Bool × World σ :=
  direct L c w

/-- The statement `f(args);` ending the body of a `void` function. -/
def callStmt {σ : Type} (L : Lib σ) (c : LibCall) (w : World σ) : World σ :=
  (direct L c w).2

/-- What the caller of a function declared `bool` observes of a call whose body
has no `return` statement: the call comes back with some value, or it never comes
back, the world having got as far as `w`. -/
inductive Outcome (σ : Type) where
  | returned (value : Bool) (w : World σ)
  | noReturn (w : World σ)
  deriving DecidableEq, Repr

/-- The world a call declared `bool` has reached. -/
def Outcome.world {σ : Type} : Outcome σ → World σ
  | .returned _ w => w
  | .noReturn w => w

/-- The value the caller reads, when the call comes back. -/
def Outcome.value? {σ : Type} : Outcome σ → Option Bool
  | .returned value _ => some value
  | .noReturn _ => none

/-- What happens once control reaches the closing brace of a function declared
`bool` without having executed a `return`.  C++ leaves this undefined, so the
source fixes nothing here and it is taken as a parameter: it is given the wrapped
libraries, the value the last call left behind, and the world at the closing
brace, and decides everything the caller observes. -/
abbrev AtEnd (σ : Type) := Lib σ → Bool → World σ → Outcome σ

/-! ## The twelve exported functions -/

/-- Source: `bool ig_ImplOpenGL3_Init(const char *glsl_version)`, body
`return ImGui_ImplOpenGL3_Init(glsl_version);`. -/
def ig_ImplOpenGL3_Init {σ : Type} (L : Lib σ) (glsl_version : Ptr) (w : World σ) :
    Option Bool × World σ :=
  returnCall L (.ImGui_ImplOpenGL3_Init glsl_version) w

/-- Source: `void ig_ImplOpenGL3_Shutdown(void)`, body `ImGui_ImplOpenGL3_Shutdown();`. -/
def ig_ImplOpenGL3_Shutdown {σ : Type} (L : Lib σ) (w : World σ) : World σ :=
  callStmt L .ImGui_ImplOpenGL3_Shutdown w

/-- Source: `void ig_ImplOpenGL3_NewFrame(void)`, body `ImGui_ImplOpenGL3_NewFrame();`. -/
def ig_ImplOpenGL3_NewFrame {σ : Type} (L : Lib σ) (w : World σ) : World σ :=
  callStmt L .ImGui_ImplOpenGL3_NewFrame w

/-- Source: `void ig_ImplOpenGL3_RenderDrawData(ImDrawData *draw_data)`, body
`ImGui_ImplOpenGL3_RenderDrawData(draw_data);`. -/
def ig_ImplOpenGL3_RenderDrawData {σ : Type} (L : Lib σ) (draw_data : Ptr) (w : World σ) :
    World σ :=
  callStmt L (.ImGui_ImplOpenGL3_RenderDrawData draw_data) w

/-- The statements of the body of `ig_ImplOpenGL3_CreateDeviceObjects`: the one
expression statement `ImGui_ImplOpenGL3_CreateDeviceObjects();`.  Gives the flag
that call returned, which the statement drops, and the world at the closing brace. -/
def ig_ImplOpenGL3_CreateDeviceObjects_body {σ : Type} (L : Lib σ) (w : World σ) :
    Bool × World σ :=
  ((L.ImGui_ImplOpenGL3_CreateDeviceObjects w.backend).1,
    callStmt L .ImGui_ImplOpenGL3_CreateDeviceObjects w)

/-- Source: `bool ig_ImplOpenGL3_CreateDeviceObjects(void)`, body
`ImGui_ImplOpenGL3_CreateDeviceObjects();` with no `return`: the statement is
executed and control reaches the closing brace, from where `atEnd` takes over. -/
def ig_ImplOpenGL3_CreateDeviceObjects {σ : Type} (atEnd : AtEnd σ) (L : Lib σ) (w : World σ) :
    Outcome σ :=
  atEnd L (ig_ImplOpenGL3_CreateDeviceObjects_body L w).1
    (ig_ImplOpenGL3_CreateDeviceObjects_body L w).2

/-- Source: `void ig_ImplOpenGL3_DestroyDeviceObjects(void)`, body
`ImGui_ImplOpenGL3_DestroyDeviceObjects();`. -/
def ig_ImplOpenGL3_DestroyDeviceObjects {σ : Type} (L : Lib σ) (w : World σ) : World σ :=
  callStmt L .ImGui_ImplOpenGL3_DestroyDeviceObjects w

/-- Source: `void ig_ImplOpenGL3_UpdateTexture(ImTextureData *tex)`, body
`ImGui_ImplOpenGL3_UpdateTexture(tex);`. -/
def ig_ImplOpenGL3_UpdateTexture {σ : Type} (L : Lib σ) (tex : Ptr) (w : World σ) : World σ :=
  callStmt L (.ImGui_ImplOpenGL3_UpdateTexture tex) w

/-- Source: `bool ig_ImplSDL3_InitForOpenGL(SDL_Window *window, void *sdl_gl_context)`,
body `return ImGui_ImplSDL3_InitForOpenGL(window, sdl_gl_context);`. -/
def ig_ImplSDL3_InitForOpenGL {σ : Type} (L : Lib σ) (window : Ptr) (sdl_gl_context : Ptr)
    (w : World σ) : Option Bool × World σ :=
  returnCall L (.ImGui_ImplSDL3_InitForOpenGL window sdl_gl_context) w

/-- Source: `void ig_ImplSDL3_Shutdown(void)`, body `ImGui_ImplSDL3_Shutdown();`. -/
def ig_ImplSDL3_Shutdown {σ : Type} (L : Lib σ) (w : World σ) : World σ :=
  callStmt L .ImGui_ImplSDL3_Shutdown w

/-- Source: `void ig_ImplSDL3_NewFrame(void)`, body `ImGui_ImplSDL3_NewFrame();`. -/
def ig_ImplSDL3_NewFrame {σ : Type} (L : Lib σ) (w : World σ) : World σ :=
  callStmt L .ImGui_ImplSDL3_NewFrame w

/-- Source: `bool ig_ImplSDL3_ProcessEvent(const SDL_Event *event)`, body
`return ImGui_ImplSDL3_ProcessEvent(event);`. -/
def ig_ImplSDL3_ProcessEvent {σ : Type} (L : Lib σ) (event : Ptr) (w : World σ) :
    Option Bool × World σ :=
  returnCall L (.ImGui_ImplSDL3_ProcessEvent event) w

/-- How far the statements of a call have got: the call has returned, leaving a
world; or it is still executing after the steps it was given, having reached a
world; or control has reached the closing brace of a function declared `bool`
without a `return`, in a world, beyond which the source fixes nothing. -/
inductive Exec (σ : Type) where
  | returned (w : World σ)
  | running (w : World σ)
  | fellOff (w : World σ)
  deriving DecidableEq, Repr

/-- The world a call has reached. -/
def Exec.world {σ : Type} : Exec σ → World σ
  | .returned w => w
  | .running w => w
  | .fellOff w => w

/-- Whether a call has returned. -/
def Exec.hasReturned {σ : Type} : Exec σ → Bool
  | .returned _ => true
  | .running _ => false
  | .fellOff _ => false

/-- Source: `void ig_ImplSDL3_SetGamepadMode(mode, manual_gamepads_array,
manual_gamepads_count)`, whose body is the single statement
`ig_ImplSDL3_SetGamepadMode(mode, manual_gamepads_array, manual_gamepads_count);`:
the callee is the function itself.  `fuel` bounds the number of call statements
executed; with none left the call is reported as still running.  The body returns
once its call statement has returned; the callee is a `void` function, so the third
arm of the match cannot arise.  The wrapped libraries do not occur in the body, so
the function takes no `Lib`. -/
def ig_ImplSDL3_SetGamepadMode {σ : Type} :
    Nat → ImGui_ImplSDL3_GamepadMode → Ptr → Int → World σ → Exec σ
  | 0, _, _, _, w => .running w
  | fuel + 1, mode, manual_gamepads_array, manual_gamepads_count, w =>
      match ig_ImplSDL3_SetGamepadMode fuel mode manual_gamepads_array manual_gamepads_count
          { w with trace := w.trace ++
              [Event.ig_ImplSDL3_SetGamepadMode mode manual_gamepads_array manual_gamepads_count] } with
      | .returned w' => .returned w'
      | .running w' => .running w'
      | .fellOff w' => .fellOff w'

/-! ## A caller's view -/

/-- One call of an exported function by a caller, with its arguments. -/
inductive ShimCall where
  | ig_ImplOpenGL3_Init (glsl_version : Ptr)
  | ig_ImplOpenGL3_Shutdown
  | ig_ImplOpenGL3_NewFrame
  | ig_ImplOpenGL3_RenderDrawData (draw_data : Ptr)
  | ig_ImplOpenGL3_CreateDeviceObjects
  | ig_ImplOpenGL3_DestroyDeviceObjects
  | ig_ImplOpenGL3_UpdateTexture (tex : Ptr)
  | ig_ImplSDL3_InitForOpenGL (window : Ptr) (sdl_gl_context : Ptr)
  | ig_ImplSDL3_Shutdown
  | ig_ImplSDL3_NewFrame
  | ig_ImplSDL3_ProcessEvent (event : Ptr)
  | ig_ImplSDL3_SetGamepadMode (mode : ImGui_ImplSDL3_GamepadMode)
      (manual_gamepads_array : Ptr) (manual_gamepads_count : Int)
  deriving DecidableEq, Repr

/-- Executing the statements of one exported function for at most `fuel` nested
call statements. -/
def ShimCall.exec {σ : Type} (L : Lib σ) (fuel : Nat) : ShimCall → World σ → Exec σ
  | .ig_ImplOpenGL3_Init glsl_version, w => .returned (CimguiImpl.ig_ImplOpenGL3_Init L glsl_version w).2
  | .ig_ImplOpenGL3_Shutdown, w => .returned (CimguiImpl.ig_ImplOpenGL3_Shutdown L w)
  | .ig_ImplOpenGL3_NewFrame, w => .returned (CimguiImpl.ig_ImplOpenGL3_NewFrame L w)
  | .ig_ImplOpenGL3_RenderDrawData draw_data, w =>
      .returned (CimguiImpl.ig_ImplOpenGL3_RenderDrawData L draw_data w)
  | .ig_ImplOpenGL3_CreateDeviceObjects, w =>
      .fellOff (CimguiImpl.ig_ImplOpenGL3_CreateDeviceObjects_body L w).2
  | .ig_ImplOpenGL3_DestroyDeviceObjects, w =>
      .returned (CimguiImpl.ig_ImplOpenGL3_DestroyDeviceObjects L w)
  | .ig_ImplOpenGL3_UpdateTexture tex, w => .returned (CimguiImpl.ig_ImplOpenGL3_UpdateTexture L tex w)
  | .ig_ImplSDL3_InitForOpenGL window sdl_gl_context, w =>
      .returned (CimguiImpl.ig_ImplSDL3_InitForOpenGL L window sdl_gl_context w).2
  | .ig_ImplSDL3_Shutdown, w => .returned (CimguiImpl.ig_ImplSDL3_Shutdown L w)
  | .ig_ImplSDL3_NewFrame, w => .returned (CimguiImpl.ig_ImplSDL3_NewFrame L w)
  | .ig_ImplSDL3_ProcessEvent event, w => .returned (CimguiImpl.ig_ImplSDL3_ProcessEvent L event w).2
  | .ig_ImplSDL3_SetGamepadMode mode arr count, w =>
      CimguiImpl.ig_ImplSDL3_SetGamepadMode fuel mode arr count w

/-- The shim side of the double-initialisation scenario: `ig_ImplOpenGL3_Init(a)`
followed by `ig_ImplOpenGL3_Init(b)`, giving both yielded values and the final world. -/
def shim_Init_twice {σ : Type} (L : Lib σ) (a b : Ptr) (w : World σ) :
    (Option Bool × Option Bool) × World σ :=
  ((( ig_ImplOpenGL3_Init L a w).1, (ig_ImplOpenGL3_Init L b (ig_ImplOpenGL3_Init L a w).2).1),
    (ig_ImplOpenGL3_Init L b (ig_ImplOpenGL3_Init L a w).2).2)

/-- The rendering-backend init function called twice without an intervening
shutdown, directly against the underlying library, as the spec words it: both
flags and the final library state. -/
def direct_Init_twice {σ : Type} (L : Lib σ) (a b : Ptr) (s : σ) : (Bool × Bool) × σ :=
  (((L.ImGui_ImplOpenGL3_Init a s).1,
      (L.ImGui_ImplOpenGL3_Init b (L.ImGui_ImplOpenGL3_Init a s).2).1),
    (L.ImGui_ImplOpenGL3_Init b (L.ImGui_ImplOpenGL3_Init a s).2).2)

/-! ## A concrete pair of wrapped libraries, for evaluating the shim -/

/-- State of the sample libraries. -/
structure Sample where
  glInits : Nat
  glsl : Ptr
  frames : Nat
  drawn : List Ptr
  deviceObjects : Bool
  textures : List Ptr
  window : Ptr
  glContext : Ptr
  sdlFrames : Nat
  consumed : List Ptr
  gamepadMode : ImGui_ImplSDL3_GamepadMode
  gamepads : Ptr
  gamepadCount : Int
  deriving DecidableEq, Repr

/-- The sample libraries before any call. -/
def Sample.fresh : Sample :=
  { glInits := 0, glsl := 0, frames := 0, drawn := [], deviceObjects := false, textures := [],
    window := 0, glContext := 0, sdlFrames := 0, consumed := [],
    gamepadMode := .AutoFirst, gamepads := 0, gamepadCount := 0 }

/-- Sample libraries: rendering init succeeds only the first time, window init
succeeds on a non-null window, and an event is consumed when its address is odd. -/
def sampleLib : Lib Sample where
  ImGui_ImplOpenGL3_Init v s := (s.glInits == 0, { s with glInits := s.glInits + 1, glsl := v })
  ImGui_ImplOpenGL3_Shutdown s := { s with glInits := 0, deviceObjects := false }
  ImGui_ImplOpenGL3_NewFrame s := { s with frames := s.frames + 1 }
  ImGui_ImplOpenGL3_RenderDrawData d s := { s with drawn := d :: s.drawn }
  ImGui_ImplOpenGL3_CreateDeviceObjects s := (s.glInits != 0, { s with deviceObjects := s.glInits != 0 })
  ImGui_ImplOpenGL3_DestroyDeviceObjects s := { s with deviceObjects := false }
  ImGui_ImplOpenGL3_UpdateTexture t s := { s with textures := t :: s.textures }
  ImGui_ImplSDL3_InitForOpenGL win ctx s := (win != 0, { s with window := win, glContext := ctx })
  ImGui_ImplSDL3_Shutdown s := { s with window := 0, glContext := 0 }
  ImGui_ImplSDL3_NewFrame s := { s with sdlFrames := s.sdlFrames + 1 }
  ImGui_ImplSDL3_ProcessEvent e s :=
    if e % 2 == 1 then (true, { s with consumed := e :: s.consumed }) else (false, s)
  ImGui_ImplSDL3_SetGamepadMode m a c s := { s with gamepadMode := m, gamepads := a, gamepadCount := c }

/-- The world before any call, over the sample libraries. -/
def sampleWorld : World Sample := { backend := Sample.fresh, trace := [] }

/-- One way a build may continue past the closing brace: the function comes back
to its caller, who reads as result the value the last call left behind. -/
def returnRegister {σ : Type} : AtEnd σ :=
  fun _ left w => Outcome.returned left w

/-- Another way a build may continue past the closing brace: no return sequence is
laid out, control runs on into the function that follows in the file,
`ig_ImplOpenGL3_DestroyDeviceObjects`, and never comes back to the caller. -/
def fallThrough {σ : Type} : AtEnd σ :=
  fun L _ w => Outcome.noReturn (ig_ImplOpenGL3_DestroyDeviceObjects L w)

/-! ## Helper lemmas -/

/-- After `fuel` call statements the self-calling body is still running, the
library state is untouched and the trace has grown by `fuel` self-calls. -/
theorem setGamepadMode_unfold {σ : Type} (mode : ImGui_ImplSDL3_GamepadMode) (arr : Ptr)
    (count : Int) (fuel : Nat) (w : World σ) :
    ig_ImplSDL3_SetGamepadMode fuel mode arr count w =
      Exec.running { backend := w.backend,
                     trace := w.trace ++
                       List.replicate fuel (Event.ig_ImplSDL3_SetGamepadMode mode arr count) } := by
  induction fuel generalizing w with
  | zero => simp [ig_ImplSDL3_SetGamepadMode]
  | succ n ih =>
    rw [ig_ImplSDL3_SetGamepadMode, ih]
    simp [List.replicate_succ]

/-- A call statement on a library function adds exactly that call to the trace and
leaves the library state the function leaves. -/
theorem direct_world {σ : Type} (L : Lib σ) (c : LibCall) (w : World σ) :
    (direct L c w).2 = { backend := (L.run c w.backend).2, trace := w.trace ++ [Event.lib c] } :=
  rfl

/-! ## The claims -/

/-- C4: for every version-string pointer, the null one included, and every state,
`ig_ImplOpenGL3_Init` invokes `ImGui_ImplOpenGL3_Init` once with the pointer
unchanged, yields exactly the flag that call returns and leaves exactly the
library state that call leaves. -/
theorem ig_ImplOpenGL3_Init_forwards {σ : Type} (L : Lib σ) (glsl_version : Ptr) (w : World σ) :
    ig_ImplOpenGL3_Init L glsl_version w =
        (some (L.ImGui_ImplOpenGL3_Init glsl_version w.backend).1,
          { backend := (L.ImGui_ImplOpenGL3_Init glsl_version w.backend).2,
            trace := w.trace ++ [Event.lib (LibCall.ImGui_ImplOpenGL3_Init glsl_version)] }) ∧
      ig_ImplOpenGL3_Init L NULL w =
        (some (L.ImGui_ImplOpenGL3_Init NULL w.backend).1,
          { backend := (L.ImGui_ImplOpenGL3_Init NULL w.backend).2,
            trace := w.trace ++ [Event.lib (LibCall.ImGui_ImplOpenGL3_Init 0)] }) :=
  ⟨rfl, rfl⟩

/-- C5: for every event pointer and state, `ig_ImplSDL3_ProcessEvent` yields
exactly the flag `ImGui_ImplSDL3_ProcessEvent` returns, after exactly that one
call, and leaves the state that call leaves; so on an event the library reports
as not consumed while leaving its state unchanged, the shim yields false and the
state is unchanged. -/
theorem ig_ImplSDL3_ProcessEvent_forwards {σ : Type} (L : Lib σ) (event : Ptr) (w : World σ) :
    ig_ImplSDL3_ProcessEvent L event w =
        (some (L.ImGui_ImplSDL3_ProcessEvent event w.backend).1,
          { backend := (L.ImGui_ImplSDL3_ProcessEvent event w.backend).2,
            trace := w.trace ++ [Event.lib (LibCall.ImGui_ImplSDL3_ProcessEvent event)] }) ∧
      (L.ImGui_ImplSDL3_ProcessEvent event w.backend = (false, w.backend) →
        (ig_ImplSDL3_ProcessEvent L event w).1 = some false ∧
          (ig_ImplSDL3_ProcessEvent L event w).2.backend = w.backend) := by
  refine ⟨rfl, fun h => ?_⟩
  simp [ig_ImplSDL3_ProcessEvent, returnCall, direct, Lib.run, h]

/-- C5 at the sample libraries: the event at address 4 is not consumed and leaves
the state unchanged, and the shim yields false with the state unchanged. -/
theorem ig_ImplSDL3_ProcessEvent_forwards_witness :
    sampleLib.ImGui_ImplSDL3_ProcessEvent 4 sampleWorld.backend = (false, sampleWorld.backend) ∧
      (ig_ImplSDL3_ProcessEvent sampleLib 4 sampleWorld).1 = some false ∧
      (ig_ImplSDL3_ProcessEvent sampleLib 4 sampleWorld).2.backend = sampleWorld.backend :=
  ⟨rfl, (ig_ImplSDL3_ProcessEvent_forwards sampleLib 4 sampleWorld).2 rfl⟩

/-- C6: `ig_ImplOpenGL3_Init(a)` then `ig_ImplOpenGL3_Init(b)` with nothing in
between yields the two flags and the final library state of calling
`ImGui_ImplOpenGL3_Init(a)` then `ImGui_ImplOpenGL3_Init(b)` directly, through
exactly those two calls; on the sample libraries the second initialisation is
reported as failed by the library and the shim yields that failure. -/
theorem shim_Init_twice_refines_direct {σ : Type} (L : Lib σ) (a b : Ptr) (w : World σ) :
    shim_Init_twice L a b w =
        ((some (direct_Init_twice L a b w.backend).1.1, some (direct_Init_twice L a b w.backend).1.2),
          { backend := (direct_Init_twice L a b w.backend).2,
            trace := w.trace ++ [Event.lib (LibCall.ImGui_ImplOpenGL3_Init a),
                                 Event.lib (LibCall.ImGui_ImplOpenGL3_Init b)] }) ∧
      (shim_Init_twice sampleLib 7 9 sampleWorld).1 = (some true, some false) ∧
      (direct_Init_twice sampleLib 7 9 sampleWorld.backend).1 = (true, false) := by
  refine ⟨?_, rfl, rfl⟩
  simp [shim_Init_twice, direct_Init_twice, ig_ImplOpenGL3_Init, returnCall, direct, Lib.run]

/-- C7: for every window pointer, GL context pointer and state,
`ig_ImplSDL3_InitForOpenGL` invokes `ImGui_ImplSDL3_InitForOpenGL` once with both
pointers unchanged and in the same order, yields exactly the flag that call
returns and leaves exactly the state that call leaves. -/
theorem ig_ImplSDL3_InitForOpenGL_forwards {σ : Type} (L : Lib σ) (window sdl_gl_context : Ptr)
    (w : World σ) :
    ig_ImplSDL3_InitForOpenGL L window sdl_gl_context w =
      (some (L.ImGui_ImplSDL3_InitForOpenGL window sdl_gl_context w.backend).1,
        { backend := (L.ImGui_ImplSDL3_InitForOpenGL window sdl_gl_context w.backend).2,
          trace := w.trace ++
            [Event.lib (LibCall.ImGui_ImplSDL3_InitForOpenGL window sdl_gl_context)] }) :=
  rfl

/-- C8: each of the seven result-less operations performs exactly one call, to the
same-named `ImGui_Impl*` function with its argument unchanged, and the resulting
library state is the one that call leaves. -/
theorem void_operations_forward {σ : Type} (L : Lib σ) (draw_data tex : Ptr) (w : World σ) :
    ig_ImplOpenGL3_Shutdown L w =
        { backend := L.ImGui_ImplOpenGL3_Shutdown w.backend,
          trace := w.trace ++ [Event.lib LibCall.ImGui_ImplOpenGL3_Shutdown] } ∧
      ig_ImplOpenGL3_NewFrame L w =
        { backend := L.ImGui_ImplOpenGL3_NewFrame w.backend,
          trace := w.trace ++ [Event.lib LibCall.ImGui_ImplOpenGL3_NewFrame] } ∧
      ig_ImplOpenGL3_RenderDrawData L draw_data w =
        { backend := L.ImGui_ImplOpenGL3_RenderDrawData draw_data w.backend,
          trace := w.trace ++ [Event.lib (LibCall.ImGui_ImplOpenGL3_RenderDrawData draw_data)] } ∧
      ig_ImplOpenGL3_DestroyDeviceObjects L w =
        { backend := L.ImGui_ImplOpenGL3_DestroyDeviceObjects w.backend,
          trace := w.trace ++ [Event.lib LibCall.ImGui_ImplOpenGL3_DestroyDeviceObjects] } ∧
      ig_ImplOpenGL3_UpdateTexture L tex w =
        { backend := L.ImGui_ImplOpenGL3_UpdateTexture tex w.backend,
          trace := w.trace ++ [Event.lib (LibCall.ImGui_ImplOpenGL3_UpdateTexture tex)] } ∧
      ig_ImplSDL3_Shutdown L w =
        { backend := L.ImGui_ImplSDL3_Shutdown w.backend,
          trace := w.trace ++ [Event.lib LibCall.ImGui_ImplSDL3_Shutdown] } ∧
      ig_ImplSDL3_NewFrame L w =
        { backend := L.ImGui_ImplSDL3_NewFrame w.backend,
          trace := w.trace ++ [Event.lib LibCall.ImGui_ImplSDL3_NewFrame] } :=
  ⟨rfl, rfl, rfl, rfl, rfl, rfl, rfl⟩

/-- C9, as amended: for every state the body of `ig_ImplOpenGL3_CreateDeviceObjects`
executes exactly one call, to `ImGui_ImplOpenGL3_CreateDeviceObjects`, so that at
the closing brace the library state is the one the direct call leaves; the flag
is dropped and the statements end without a `return`.  What the caller observes is
whatever happens past the closing brace, applied to that world, and the source
fixes none of it: every outcome is produced by some continuation. -/
theorem ig_ImplOpenGL3_CreateDeviceObjects_ends_without_return {σ : Type} (L : Lib σ)
    (fuel : Nat) (w : World σ) :
    ig_ImplOpenGL3_CreateDeviceObjects_body L w =
        ((L.ImGui_ImplOpenGL3_CreateDeviceObjects w.backend).1,
          { backend := (L.ImGui_ImplOpenGL3_CreateDeviceObjects w.backend).2,
            trace := w.trace ++ [Event.lib LibCall.ImGui_ImplOpenGL3_CreateDeviceObjects] }) ∧
      ShimCall.exec L fuel ShimCall.ig_ImplOpenGL3_CreateDeviceObjects w =
        Exec.fellOff
          { backend := (L.ImGui_ImplOpenGL3_CreateDeviceObjects w.backend).2,
            trace := w.trace ++ [Event.lib LibCall.ImGui_ImplOpenGL3_CreateDeviceObjects] } ∧
      (∀ atEnd : AtEnd σ,
        ig_ImplOpenGL3_CreateDeviceObjects atEnd L w =
          atEnd L (L.ImGui_ImplOpenGL3_CreateDeviceObjects w.backend).1
            { backend := (L.ImGui_ImplOpenGL3_CreateDeviceObjects w.backend).2,
              trace := w.trace ++ [Event.lib LibCall.ImGui_ImplOpenGL3_CreateDeviceObjects] }) ∧
      ∀ o : Outcome σ, ∃ atEnd : AtEnd σ, ig_ImplOpenGL3_CreateDeviceObjects atEnd L w = o :=
  ⟨rfl, rfl, fun _ => rfl, fun o => ⟨fun _ _ _ => o, rfl⟩⟩

/-- C9 as stated fails: when the build comes back to the caller with the value the
last call left behind, what `ig_ImplOpenGL3_CreateDeviceObjects` yields is a
function of the underlying flag in every state of the sample libraries, namely
the flag itself, false before the rendering init and true after it; and when
control runs on into the next function, the one shim call makes two library
calls and leaves a library state other than the direct call's. -/
theorem ig_ImplOpenGL3_CreateDeviceObjects_value_can_track_flag :
    (∃ f : Bool → Bool, ∀ w : World Sample,
        ig_ImplOpenGL3_CreateDeviceObjects returnRegister sampleLib w =
          Outcome.returned (f (sampleLib.ImGui_ImplOpenGL3_CreateDeviceObjects w.backend).1)
            (direct sampleLib LibCall.ImGui_ImplOpenGL3_CreateDeviceObjects w).2) ∧
      (sampleLib.ImGui_ImplOpenGL3_CreateDeviceObjects sampleWorld.backend).1 = false ∧
      (ig_ImplOpenGL3_CreateDeviceObjects returnRegister sampleLib sampleWorld).value? =
        some false ∧
      (sampleLib.ImGui_ImplOpenGL3_CreateDeviceObjects
          (ig_ImplOpenGL3_Init sampleLib NULL sampleWorld).2.backend).1 = true ∧
      (ig_ImplOpenGL3_CreateDeviceObjects returnRegister sampleLib
          (ig_ImplOpenGL3_Init sampleLib NULL sampleWorld).2).value? = some true ∧
      (ig_ImplOpenGL3_CreateDeviceObjects fallThrough sampleLib sampleWorld).world.trace =
        [Event.lib LibCall.ImGui_ImplOpenGL3_CreateDeviceObjects,
         Event.lib LibCall.ImGui_ImplOpenGL3_DestroyDeviceObjects] ∧
      (ig_ImplOpenGL3_CreateDeviceObjects fallThrough sampleLib
          (ig_ImplOpenGL3_Init sampleLib NULL sampleWorld).2).world.backend ≠
        (direct sampleLib LibCall.ImGui_ImplOpenGL3_CreateDeviceObjects
          (ig_ImplOpenGL3_Init sampleLib NULL sampleWorld).2).2.backend :=
  ⟨⟨id, fun _ => rfl⟩, rfl, rfl, rfl, rfl, rfl, by decide⟩

/-- C3, evaluated on the code: the body has no `return`, so nothing in the source
hands the flag to the caller.  When control runs on past the closing brace into
`ig_ImplOpenGL3_DestroyDeviceObjects`, the call makes a second library call and
does not come back, so it is not a return of the flag in the direct call's state;
on the sample libraries after a successful init the underlying flag is true and
the direct call leaves the device objects created, while the shim call leaves
them destroyed. -/
theorem ig_ImplOpenGL3_CreateDeviceObjects_flag_not_returned {σ : Type} (L : Lib σ)
    (w : World σ) :
    ig_ImplOpenGL3_CreateDeviceObjects fallThrough L w =
        Outcome.noReturn
          { backend := L.ImGui_ImplOpenGL3_DestroyDeviceObjects
              (L.ImGui_ImplOpenGL3_CreateDeviceObjects w.backend).2,
            trace := w.trace ++ [Event.lib LibCall.ImGui_ImplOpenGL3_CreateDeviceObjects,
                                 Event.lib LibCall.ImGui_ImplOpenGL3_DestroyDeviceObjects] } ∧
      ig_ImplOpenGL3_CreateDeviceObjects fallThrough L w ≠
        Outcome.returned (L.ImGui_ImplOpenGL3_CreateDeviceObjects w.backend).1
          (direct L LibCall.ImGui_ImplOpenGL3_CreateDeviceObjects w).2 ∧
      (sampleLib.ImGui_ImplOpenGL3_CreateDeviceObjects
          (ig_ImplOpenGL3_Init sampleLib NULL sampleWorld).2.backend).1 = true ∧
      (direct sampleLib LibCall.ImGui_ImplOpenGL3_CreateDeviceObjects
          (ig_ImplOpenGL3_Init sampleLib NULL sampleWorld).2).2.backend.deviceObjects = true ∧
      (ig_ImplOpenGL3_CreateDeviceObjects fallThrough sampleLib
          (ig_ImplOpenGL3_Init sampleLib NULL sampleWorld).2).value? = none ∧
      (ig_ImplOpenGL3_CreateDeviceObjects fallThrough sampleLib
          (ig_ImplOpenGL3_Init sampleLib NULL sampleWorld).2).world.backend.deviceObjects =
        false := by
  refine ⟨?_, ?_, rfl, rfl, rfl, rfl⟩
  · simp [ig_ImplOpenGL3_CreateDeviceObjects, ig_ImplOpenGL3_CreateDeviceObjects_body, fallThrough,
      ig_ImplOpenGL3_DestroyDeviceObjects, callStmt, direct, Lib.run]
  · exact fun h => Outcome.noConfusion h

/-- C1, evaluated on the code: however many steps it is given,
`ig_ImplSDL3_SetGamepadMode` never reaches the outcome of the direct call and its
trace is never the direct call's trace; in manual mode with a null array of
length zero on the sample libraries, the direct call sets the gamepad mode to
manual while the shim leaves it at its initial value. -/
theorem ig_ImplSDL3_SetGamepadMode_not_forwarded {σ : Type} (L : Lib σ) (fuel : Nat)
    (mode : ImGui_ImplSDL3_GamepadMode) (arr : Ptr) (count : Int) (w : World σ) :
    ig_ImplSDL3_SetGamepadMode fuel mode arr count w ≠
        Exec.returned (direct L (LibCall.ImGui_ImplSDL3_SetGamepadMode mode arr count) w).2 ∧
      (ig_ImplSDL3_SetGamepadMode fuel mode arr count w).world.trace ≠
        (direct L (LibCall.ImGui_ImplSDL3_SetGamepadMode mode arr count) w).2.trace ∧
      (direct sampleLib (LibCall.ImGui_ImplSDL3_SetGamepadMode .Manual NULL 0)
          sampleWorld).2.backend.gamepadMode = ImGui_ImplSDL3_GamepadMode.Manual ∧
      (ig_ImplSDL3_SetGamepadMode fuel .Manual NULL 0 sampleWorld).world.backend.gamepadMode =
        ImGui_ImplSDL3_GamepadMode.AutoFirst := by
  refine ⟨?_, ?_, rfl, ?_⟩
  · rw [setGamepadMode_unfold]
    exact fun h => Exec.noConfusion h
  · rw [setGamepadMode_unfold, direct_world]
    simp only [Exec.world, ne_eq, List.append_cancel_left_eq]
    cases fuel with
    | zero => simp
    | succ n => simp [List.replicate_succ]
  · rw [setGamepadMode_unfold]
    rfl

/-- C2, evaluated on the code: for every mode, array, count and state, and however
many steps it is given, `ig_ImplSDL3_SetGamepadMode` has not returned; no library
function is involved, so this holds although every library function terminates. -/
theorem ig_ImplSDL3_SetGamepadMode_never_returns {σ : Type} (fuel : Nat)
    (mode : ImGui_ImplSDL3_GamepadMode) (arr : Ptr) (count : Int) (w : World σ) :
    (ig_ImplSDL3_SetGamepadMode fuel mode arr count w).hasReturned = false ∧
      ∀ w' : World σ, ig_ImplSDL3_SetGamepadMode fuel mode arr count w ≠ Exec.returned w' := by
  rw [setGamepadMode_unfold]
  exact ⟨rfl, fun _ h => Exec.noConfusion h⟩

/-- C10: whichever exported function is called and however far its statements run,
the calls they add to the trace contain no invocation of the library's
`ImGui_ImplSDL3_SetGamepadMode`; and after any number of steps
`ig_ImplSDL3_SetGamepadMode` is still running, has executed only calls to itself
with the same three arguments, and has left the library state as it was. -/
theorem lib_SetGamepadMode_never_invoked {σ : Type} (L : Lib σ) (fuel : Nat) (op : ShimCall)
    (w : World σ) :
    (∃ added : List Event,
        (op.exec L fuel w).world.trace = w.trace ++ added ∧
          ∀ e ∈ added, e.isLibSetGamepadMode = false) ∧
      ∀ (mode : ImGui_ImplSDL3_GamepadMode) (arr : Ptr) (count : Int),
        ig_ImplSDL3_SetGamepadMode fuel mode arr count w =
            Exec.running
              { backend := w.backend,
                trace := w.trace ++
                  List.replicate fuel (Event.ig_ImplSDL3_SetGamepadMode mode arr count) } ∧
          (ig_ImplSDL3_SetGamepadMode fuel mode arr count w).world.backend = w.backend := by
  refine ⟨?_, fun mode arr count => ?_⟩
  · cases op with
    | ig_ImplSDL3_SetGamepadMode mode arr count =>
      refine ⟨List.replicate fuel (Event.ig_ImplSDL3_SetGamepadMode mode arr count), ?_, ?_⟩
      · simp [ShimCall.exec, setGamepadMode_unfold, Exec.world]
      · intro e he
        rw [List.eq_of_mem_replicate he]
        rfl
    | ig_ImplOpenGL3_Init v =>
      exact ⟨[Event.lib (LibCall.ImGui_ImplOpenGL3_Init v)], rfl, by simp [Event.isLibSetGamepadMode]⟩
    | ig_ImplOpenGL3_Shutdown =>
      exact ⟨[Event.lib LibCall.ImGui_ImplOpenGL3_Shutdown], rfl, by simp [Event.isLibSetGamepadMode]⟩
    | ig_ImplOpenGL3_NewFrame =>
      exact ⟨[Event.lib LibCall.ImGui_ImplOpenGL3_NewFrame], rfl, by simp [Event.isLibSetGamepadMode]⟩
    | ig_ImplOpenGL3_RenderDrawData d =>
      exact ⟨[Event.lib (LibCall.ImGui_ImplOpenGL3_RenderDrawData d)], rfl,
        by simp [Event.isLibSetGamepadMode]⟩
    | ig_ImplOpenGL3_CreateDeviceObjects =>
      exact ⟨[Event.lib LibCall.ImGui_ImplOpenGL3_CreateDeviceObjects], rfl,
        by simp [Event.isLibSetGamepadMode]⟩
    | ig_ImplOpenGL3_DestroyDeviceObjects =>
      exact ⟨[Event.lib LibCall.ImGui_ImplOpenGL3_DestroyDeviceObjects], rfl,
        by simp [Event.isLibSetGamepadMode]⟩
    | ig_ImplOpenGL3_UpdateTexture t =>
      exact ⟨[Event.lib (LibCall.ImGui_ImplOpenGL3_UpdateTexture t)], rfl,
        by simp [Event.isLibSetGamepadMode]⟩
    | ig_ImplSDL3_InitForOpenGL win ctx =>
      exact ⟨[Event.lib (LibCall.ImGui_ImplSDL3_InitForOpenGL win ctx)], rfl,
        by simp [Event.isLibSetGamepadMode]⟩
    | ig_ImplSDL3_Shutdown =>
      exact ⟨[Event.lib LibCall.ImGui_ImplSDL3_Shutdown], rfl, by simp [Event.isLibSetGamepadMode]⟩
    | ig_ImplSDL3_NewFrame =>
      exact ⟨[Event.lib LibCall.ImGui_ImplSDL3_NewFrame], rfl, by simp [Event.isLibSetGamepadMode]⟩
    | ig_ImplSDL3_ProcessEvent ev =>
      exact ⟨[Event.lib (LibCall.ImGui_ImplSDL3_ProcessEvent ev)], rfl,
        by simp [Event.isLibSetGamepadMode]⟩
  · rw [setGamepadMode_unfold]
    exact ⟨rfl, rfl⟩

end CimguiImpl
